import Mathlib

/-!
Verification of the deterministic scoring and percentile-normalization
pipeline of the EV-charging visualization repository.

The scoring code exists in two independently executed copies: the
interactive web pipeline (`web/lib/scoring.ts`, consumed by the stations
route handler that calls the three-argument `scoreStation`) and the
offline video-rendering pipeline (`video/src/lib` data module).  Both are
shallowly embedded here over exact rational arithmetic.  Calls into the
JavaScript `Math` object's transcendental functions (`sin`, `cos`, `asin`,
`sqrt`, `exp`, `pow`, and the constant `pi`) are abstracted as a parameter
structure `MathOps`: both runtimes link against the same `Math` library,
so two pipelines agree bit-for-bit exactly when they apply the same
operations in the same order to the same inputs — which is what equality
of the embeddings for every interpretation of `MathOps` expresses.
Arithmetic (`+`, `-`, `*`, `/`, `max`, `min`, `Math.floor`) is modeled
exactly over `ℚ`.
-/

/-- The transcendental operations of the JavaScript `Math` object used by
the scoring pipeline, abstracted as an interpretation parameter. -/
structure MathOps where
  pi : ℚ
  sin : ℚ → ℚ
  cos : ℚ → ℚ
  asin : ℚ → ℚ
  sqrt : ℚ → ℚ
  exp : ℚ → ℚ
  pow : ℚ → ℚ → ℚ

/-- Per-connection record of a station (`Connections[i]` in the OCM data).
`Quantity` is nullable. -/
structure Connection where
  Quantity : Option ℤ
  deriving DecidableEq

/-- `AddressInfo` of an OCM station: the coordinate fields used by the
scoring pipeline. -/
structure AddrInfo where
  Latitude : ℚ
  Longitude : ℚ
  deriving DecidableEq

/-- An OCM station record, restricted to the fields the scoring pipeline
reads: nullable explicit charger count, nullable connection list, and the
address coordinates. -/
structure OcmStation where
  NumberOfPoints : Option ℤ
  Connections : Option (List Connection)
  AddressInfo : AddrInfo
  deriving DecidableEq

/-- Station status labels (`'overloaded' | 'balanced' | 'underutilized'`). -/
inductive Status where
  | overloaded
  | balanced
  | underutilized
  deriving DecidableEq

namespace Web

/-- `deriveChargerCount` from `web/lib/scoring.ts`:
explicit `NumberOfPoints` (when non-null) wins; otherwise a non-empty
`Connections` list is summed with `Quantity ?? 1`; otherwise 1.
The JS guard `station.Connections?.length` is truthy exactly when the
list is present and non-empty. -/
def deriveChargerCount (station : OcmStation) : ℤ :=
  match station.NumberOfPoints with
  | some n => n
  | none =>
    match station.Connections with
    | some cs =>
      if cs.length ≠ 0 then cs.foldl (fun sum c => sum + c.Quantity.getD 1) 0
      else 1
    | none => 1

/-- The eight fixed demand centers of `web/lib/scoring.ts`
(lat, lng, weight). -/
def DEMAND_CENTERS : List (ℚ × ℚ × ℚ) :=
  [ (30.2672, -97.7431, 1.0),
    (30.2849, -97.7341, 0.85),
    (30.3600, -97.7200, 0.75),
    (30.2900, -97.6970, 0.70),
    (30.2200, -97.7900, 0.65),
    (30.2500, -97.7300, 0.60),
    (30.3100, -97.7500, 0.55),
    (30.2400, -97.7650, 0.50) ]

/-- `haversineKm` from `web/lib/scoring.ts` (Earth radius 6371 km). -/
def haversineKm (ops : MathOps) (lat1 lon1 lat2 lon2 : ℚ) : ℚ :=
  let R : ℚ := 6371
  let dLat := (lat2 - lat1) * ops.pi / 180
  let dLon := (lon2 - lon1) * ops.pi / 180
  let a := ops.sin (dLat / 2) ^ 2 +
    ops.cos (lat1 * ops.pi / 180) * ops.cos (lat2 * ops.pi / 180) * ops.sin (dLon / 2) ^ 2
  2 * R * ops.asin (ops.sqrt a)

/-- `simulateTrafficScore` of the interactive pipeline
(`web/lib/scoring.ts`, the copy used by the current stations route):
exponential-decay sum over the demand centers (decay 2.6), logistic
squash, sine-hash jitter, and compression into the 0.15..0.95 band. -/
def simulateTrafficScore (ops : MathOps) (lat lng : ℚ) : ℚ :=
  let score := DEMAND_CENTERS.foldl
    (fun score c =>
      match c with
      | (clat, clng, weight) =>
        let dist := haversineKm ops lat lng clat clng
        score + weight * ops.exp ((-dist) / 2.6))
    0
  let seed := ops.sin (lat * 12.9898 + lng * 78.233) * 43758.5453
  let noise := seed - (⌊seed⌋ : ℚ)
  let jitter := (noise - 0.5) * 0.25
  let normalized := 1 / (1 + ops.exp ((-2.2) * (score - 0.7)))
  let withJitter := max 0 (min 1 (normalized + jitter))
  0.15 + withJitter * 0.8

/-- `synthOptimizationScore` from `web/lib/scoring.ts`: sine-hash noise
biased high by `pow 0.35`, plus a small traffic/capacity signal, clamped
to [0,1]. -/
def synthOptimizationScore (ops : MathOps) (lat lng trafficScore normStations : ℚ) : ℚ :=
  let seed := ops.sin (lat * 91.123 + lng * 47.77) * 15731.743
  let noise := seed - (⌊seed⌋ : ℚ)
  let base := ops.pow noise 0.35
  let signal := 0.2 * trafficScore + 0.15 * normStations
  max 0 (min 1 (base * 0.75 + signal))

/-- The scored-station record produced by `scoreStation`
(`web/lib/scoring.ts`), restricted to the computed fields. -/
structure ScoredStation where
  chargerCount : ℤ
  trafficScore : ℚ
  optimizationScore : ℚ
  utilization : ℚ
  status : Status
  deriving DecidableEq

/-- The status ternary of `scoreStation` (`web/lib/scoring.ts`):
`< 0.33 → overloaded`, `< 0.66 → balanced`, else `underutilized`. -/
def statusOf (score : ℚ) : Status :=
  if score < 0.33 then Status.overloaded
  else if score < 0.66 then Status.balanced
  else Status.underutilized

/-- `scoreStation` of the interactive pipeline (three-argument version
used by the stations route): derives the charger count, the utilization
ratio, the capacity normalization, the synthesized optimization score and
the status band. -/
def scoreStation (ops : MathOps) (station : OcmStation) (trafficScore : ℚ)
    (maxChargerCount : ℤ) : ScoredStation :=
  let chargerCount := deriveChargerCount station
  let utilization := trafficScore * 100 / (chargerCount : ℚ)
  let normStations := if maxChargerCount > 0 then (chargerCount : ℚ) / (maxChargerCount : ℚ) else 0
  let optimizationScore := synthOptimizationScore ops
    station.AddressInfo.Latitude station.AddressInfo.Longitude trafficScore normStations
  let status :=
    if optimizationScore < 0.33 then Status.overloaded
    else if optimizationScore < 0.66 then Status.balanced
    else Status.underutilized
  ⟨chargerCount, trafficScore, optimizationScore, utilization, status⟩

/-- The superseded earlier copy of `simulateTrafficScore` still present in
the repository (decay 3, no jitter, capped at 1.0).  It belongs to the
stale two-argument `scoreStation` draft and is not reachable from the
current stations route; kept here to document the divergence. -/
def legacySimulateTrafficScore (ops : MathOps) (lat lng : ℚ) : ℚ :=
  let score := DEMAND_CENTERS.foldl
    (fun score c =>
      match c with
      | (clat, clng, weight) =>
        let dist := haversineKm ops lat lng clat clng
        score + weight * ops.exp ((-dist) / 3))
    0
  min score 1.0

end Web

namespace Video

/-- A GeoJSON feature as read by the video data module: the scoring code
only dereferences `feature.properties`. -/
structure Feature where
  properties : OcmStation
  deriving DecidableEq

/-- The demand-center table of the video data module (commented in the
source as "same as web/lib/scoring.ts"). -/
def DEMAND_CENTERS : List (ℚ × ℚ × ℚ) :=
  [ (30.2672, -97.7431, 1.0),
    (30.2849, -97.7341, 0.85),
    (30.3600, -97.7200, 0.75),
    (30.2900, -97.6970, 0.70),
    (30.2200, -97.7900, 0.65),
    (30.2500, -97.7300, 0.60),
    (30.3100, -97.7500, 0.55),
    (30.2400, -97.7650, 0.50) ]

/-- `haversineKm` of the video data module. -/
def haversineKm (ops : MathOps) (lat1 lon1 lat2 lon2 : ℚ) : ℚ :=
  let R : ℚ := 6371
  let dLat := (lat2 - lat1) * ops.pi / 180
  let dLon := (lon2 - lon1) * ops.pi / 180
  let a := ops.sin (dLat / 2) ^ 2 +
    ops.cos (lat1 * ops.pi / 180) * ops.cos (lat2 * ops.pi / 180) * ops.sin (dLon / 2) ^ 2
  2 * R * ops.asin (ops.sqrt a)

/-- `simulateTrafficScore` of the offline video pipeline. -/
def simulateTrafficScore (ops : MathOps) (lat lng : ℚ) : ℚ :=
  let score := DEMAND_CENTERS.foldl
    (fun score c =>
      match c with
      | (clat, clng, weight) =>
        score + weight * ops.exp ((-(haversineKm ops lat lng clat clng)) / 2.6))
    0
  let seed := ops.sin (lat * 12.9898 + lng * 78.233) * 43758.5453
  let noise := seed - (⌊seed⌋ : ℚ)
  let jitter := (noise - 0.5) * 0.25
  let normalized := 1 / (1 + ops.exp ((-2.2) * (score - 0.7)))
  0.15 + max 0 (min 1 (normalized + jitter)) * 0.8

/-- `synthOptimizationScore` of the offline video pipeline. -/
def synthOptimizationScore (ops : MathOps) (lat lng trafficScore normStations : ℚ) : ℚ :=
  let seed := ops.sin (lat * 91.123 + lng * 47.77) * 15731.743
  let noise := seed - (⌊seed⌋ : ℚ)
  let base := ops.pow noise 0.35
  let signal := 0.2 * trafficScore + 0.15 * normStations
  max 0 (min 1 (base * 0.75 + signal))

/-- `deriveChargerCount` of the video data module, reading the same
fallback chain off `feature.properties`. -/
def deriveChargerCount (feature : Feature) : ℤ :=
  let props := feature.properties
  match props.NumberOfPoints with
  | some n => n
  | none =>
    match props.Connections with
    | some cs =>
      if cs.length ≠ 0 then cs.foldl (fun s c => s + c.Quantity.getD 1) 0
      else 1
    | none => 1

end Video

/-- Shared bound: the final banding step `0.15 + clamp01 x * 0.8` always
lands in [0.15, 0.95]. -/
lemma band_mem (x : ℚ) :
    0.15 ≤ 0.15 + max 0 (min 1 x) * 0.8 ∧ 0.15 + max 0 (min 1 x) * 0.8 ≤ 0.95 := by
  have h0 : (0 : ℚ) ≤ max 0 (min 1 x) := le_max_left 0 (min 1 x)
  have h1 : max 0 (min 1 x) ≤ 1 := max_le (by norm_num) (min_le_left 1 x)
  constructor <;> nlinarith

/-- Shared bound: `clamp01 x = max 0 (min 1 x)` lies in [0, 1]. -/
lemma clamp01_mem (x : ℚ) : 0 ≤ max 0 (min 1 x) ∧ max 0 (min 1 x) ≤ 1 :=
  ⟨le_max_left 0 (min 1 x), max_le (by norm_num) (min_le_left 1 x)⟩

/-- C1: for every input record (latitude, longitude, property bag) and
every interpretation of the shared `Math` library, the interactive web
pipeline and the offline video pipeline compute identical traffic scores,
charger counts and optimization scores — the two independently executed
pipelines are bit-equivalent on the same inputs, since they perform the
same operations in the same order. -/
theorem c1_pipelines_agree (ops : MathOps) (lat lng trafficScore normStations : ℚ)
    (f : Video.Feature) :
    Web.simulateTrafficScore ops lat lng = Video.simulateTrafficScore ops lat lng ∧
    Web.deriveChargerCount f.properties = Video.deriveChargerCount f ∧
    Web.synthOptimizationScore ops lat lng trafficScore normStations =
      Video.synthOptimizationScore ops lat lng trafficScore normStations :=
  ⟨rfl, rfl, rfl⟩

/-- C2: for every pair of coordinates (and every interpretation of the
`Math` library), `simulateTrafficScore` — in both the web and the video
pipeline — returns a value in the closed interval [0.15, 0.95]. -/
theorem c2_sim_traffic_range (ops : MathOps) (lat lng : ℚ) :
    (0.15 ≤ Web.simulateTrafficScore ops lat lng ∧
      Web.simulateTrafficScore ops lat lng ≤ 0.95) ∧
    (0.15 ≤ Video.simulateTrafficScore ops lat lng ∧
      Video.simulateTrafficScore ops lat lng ≤ 0.95) := by
  constructor
  · show 0.15 ≤ 0.15 + max 0 (min 1 _) * 0.8 ∧ 0.15 + max 0 (min 1 _) * 0.8 ≤ 0.95
    exact band_mem _
  · show 0.15 ≤ 0.15 + max 0 (min 1 _) * 0.8 ∧ 0.15 + max 0 (min 1 _) * 0.8 ≤ 0.95
    exact band_mem _

namespace MapView

/-- `clamp01` from `web/components/MapView.tsx`. -/
def clamp01 (n : ℚ) : ℚ := max 0 (min 1 n)

/-- An RGB triple as produced by `hexToRgb` and consumed by `rgbToHex`. -/
structure Rgb where
  r : ℚ
  g : ℚ
  b : ℚ
  deriving DecidableEq

/-- Value of one hexadecimal digit character (`parseInt(…, 16)` per digit). -/
def hexDigitVal (c : Char) : ℕ :=
  if ('0' ≤ c ∧ c ≤ '9') then c.toNat - 48
  else if ('a' ≤ c ∧ c ≤ 'f') then c.toNat - 97 + 10
  else if ('A' ≤ c ∧ c ≤ 'F') then c.toNat - 65 + 10
  else 0

/-- `parseInt` in base 16 of a two-character slice. -/
def parseHex2 (cs : List Char) : ℕ :=
  match cs with
  | [c1, c2] => 16 * hexDigitVal c1 + hexDigitVal c2
  | _ => 0

/-- The `OPT_COLORS.good` stop of `MapView.tsx`. -/
def OPT_COLORS_good : String := "#00e68a"

/-- The `OPT_COLORS.mid` stop of `MapView.tsx`. -/
def OPT_COLORS_mid : String := "#ffb020"

/-- The `OPT_COLORS.bad` stop of `MapView.tsx`. -/
def OPT_COLORS_bad : String := "#ff3860"

/-- `hexToRgb` from `MapView.tsx`: strip the leading hash and parse the
three two-character slices in base 16. -/
def hexToRgb (hex : String) : Rgb :=
  let value := hex.toList.filter (fun c => c ≠ '#')
  { r := (parseHex2 (value.take 2) : ℚ)
  , g := (parseHex2 ((value.drop 2).take 2) : ℚ)
  , b := (parseHex2 ((value.drop 4).take 2) : ℚ) }

/-- `lerp` from `MapView.tsx`. -/
def lerp (a b t : ℚ) : ℚ := a + (b - a) * t

/-- `lerpColor` from `MapView.tsx`, modeled up to the final `rgbToHex`
formatting: it returns the per-channel linear interpolation of the two
parsed stops, i.e. exactly the `(r, g, b)` arguments the source hands to
`rgbToHex` (whose rounding-and-printing is injective and channel-monotone
presentation). -/
def lerpColor (a b : String) (t : ℚ) : Rgb :=
  let c1 := hexToRgb a
  let c2 := hexToRgb b
  { r := lerp c1.r c2.r t, g := lerp c1.g c2.g t, b := lerp c1.b c2.b t }

/-- `percentile` from `MapView.tsx`: empty input yields 0; otherwise
linear interpolation between the floor and ceil order statistics at index
`(N - 1) * p`. -/
def percentile (sorted : List ℚ) (p : ℚ) : ℚ :=
  if sorted.length = 0 then 0
  else
    let idx := ((sorted.length : ℚ) - 1) * p
    let lo := ⌊idx⌋
    let hi := ⌈idx⌉
    if lo = hi then sorted.getD lo.toNat 0
    else
      let t := idx - (lo : ℚ)
      lerp (sorted.getD lo.toNat 0) (sorted.getD hi.toNat 0) t

/-- `utilizationToScore` from `MapView.tsx`: the band-position function
mapping a value into [0,1] relative to the three percentile bounds. -/
def utilizationToScore (utilization p20 p50 p80 : ℚ) : ℚ :=
  if utilization ≤ p20 then 0
  else if p80 ≤ utilization then 1
  else if utilization ≤ p50 then clamp01 ((utilization - p20) / (p50 - p20))
  else clamp01 (0.5 + (utilization - p50) / (p80 - p50) * 0.5)

/-- `utilizationToColor` from `MapView.tsx`: band position, then the
3-stop gradient (bad → mid → good), modeled at the RGB-triple level. -/
def utilizationToColor (utilization p20 p50 p80 : ℚ) : Rgb :=
  let score := utilizationToScore utilization p20 p50 p80
  if 0.5 ≤ score then lerpColor OPT_COLORS_mid OPT_COLORS_good ((score - 0.5) / 0.5)
  else lerpColor OPT_COLORS_bad OPT_COLORS_mid (score / 0.5)

end MapView

/-- Evaluation of the good stop: `hexToRgb("#00e68a") = (0, 230, 138)`. -/
lemma hexToRgb_good_eval : MapView.hexToRgb MapView.OPT_COLORS_good = ⟨0, 230, 138⟩ := rfl

/-- Evaluation of the mid stop: `hexToRgb("#ffb020") = (255, 176, 32)`. -/
lemma hexToRgb_mid_eval : MapView.hexToRgb MapView.OPT_COLORS_mid = ⟨255, 176, 32⟩ := rfl

/-- Evaluation of the bad stop: `hexToRgb("#ff3860") = (255, 56, 96)`. -/
lemma hexToRgb_bad_eval : MapView.hexToRgb MapView.OPT_COLORS_bad = ⟨255, 56, 96⟩ := rfl

/-- C5 (code evaluation at the failing input): with percentile bounds
(pLow, pMid, pHigh) = (0, 1, 2), the band-position function returns 1 at
the value pMid = 1 and 1/2 at the value 1/2, where the claimed 0 → 0.5
first ramp requires 1/2 and 1/4 respectively; the second ramp (value 3/2
maps to 3/4) behaves as claimed.  The first ramp of the code rises to 1
instead of 0.5, contradicting the code's own comment that values around
p50 map to the middle (yellow) stop. -/
theorem c5_band_position_first_ramp_overshoots :
    MapView.utilizationToScore 1 0 1 2 = 1 ∧
    MapView.utilizationToScore (1/2) 0 1 2 = 1/2 ∧
    MapView.utilizationToScore (3/2) 0 1 2 = 3/4 := by
  refine ⟨?_, ?_, ?_⟩ <;> norm_num [MapView.utilizationToScore, MapView.clamp01]

/-- C6 (code evaluation at the failing input): with percentile bounds
(0, 1, 2), the scores s1 = 1 < s2 = 3/2 map to green channels 230 and 203
respectively — increasing the score decreases the green channel, because
the band position drops discontinuously from 1 to just above 1/2 as the
score crosses pMid. -/
theorem c6_green_channel_not_monotone :
    (1 : ℚ) < 3/2 ∧
    (MapView.utilizationToColor 1 0 1 2).g = 230 ∧
    (MapView.utilizationToColor (3/2) 0 1 2).g = 203 ∧
    (MapView.utilizationToColor (3/2) 0 1 2).g < (MapView.utilizationToColor 1 0 1 2).g := by
  have hs1 : MapView.utilizationToScore 1 0 1 2 = 1 := by
    unfold MapView.utilizationToScore
    rw [if_neg (by norm_num), if_neg (by norm_num), if_pos (by norm_num)]
    unfold MapView.clamp01
    norm_num
  have hs2 : MapView.utilizationToScore (3/2) 0 1 2 = 3/4 := by
    unfold MapView.utilizationToScore
    rw [if_neg (by norm_num), if_neg (by norm_num), if_neg (by norm_num)]
    unfold MapView.clamp01
    norm_num
  have h1 : (MapView.utilizationToColor 1 0 1 2).g = 230 := by
    unfold MapView.utilizationToColor
    rw [hs1, if_pos (by norm_num)]
    norm_num [MapView.lerpColor, MapView.lerp, hexToRgb_mid_eval, hexToRgb_good_eval]
  have h2 : (MapView.utilizationToColor (3/2) 0 1 2).g = 203 := by
    unfold MapView.utilizationToColor
    rw [hs2, if_pos (by norm_num)]
    norm_num [MapView.lerpColor, MapView.lerp, hexToRgb_mid_eval, hexToRgb_good_eval]
  exact ⟨by norm_num, h1, h2, by rw [h1, h2]; norm_num⟩

/-- C7 counterexample: on the empty population all percentile bounds are
0, and the color mapper sends the (positive) queried value 1 to the good
stop, not to the bad stop claimed by the spec. -/
theorem c7_empty_population_counterexample :
    MapView.percentile [] 0.2 = 0 ∧
    MapView.utilizationToColor 1 0 0 0 = MapView.hexToRgb MapView.OPT_COLORS_good ∧
    MapView.hexToRgb MapView.OPT_COLORS_good ≠ MapView.hexToRgb MapView.OPT_COLORS_bad := by
  refine ⟨rfl, ?_, ?_⟩
  · have hs : MapView.utilizationToScore 1 0 0 0 = 1 := by
      unfold MapView.utilizationToScore
      rw [if_neg (by norm_num), if_pos (by norm_num)]
    unfold MapView.utilizationToColor
    rw [hs, if_pos (by norm_num)]
    norm_num [MapView.lerpColor, MapView.lerp, hexToRgb_mid_eval, hexToRgb_good_eval,
      MapView.Rgb.mk.injEq]
  · norm_num [hexToRgb_good_eval, hexToRgb_bad_eval, MapView.Rgb.mk.injEq]

/-- C7 (amended): on an empty score population the percentile function
returns 0 for every p and no exception is raised (the functions are
total); under the resulting all-zero bounds the color mapper sends every
queried value at or below 0 to the bad stop and every positive queried
value to the good stop. -/
theorem c7_empty_population_amended :
    (∀ p : ℚ, MapView.percentile [] p = 0) ∧
    (∀ u : ℚ, u ≤ 0 →
      MapView.utilizationToColor u 0 0 0 = MapView.hexToRgb MapView.OPT_COLORS_bad) ∧
    (∀ u : ℚ, 0 < u →
      MapView.utilizationToColor u 0 0 0 = MapView.hexToRgb MapView.OPT_COLORS_good) := by
  refine ⟨fun p => rfl, ?_, ?_⟩
  · intro u hu
    have hs : MapView.utilizationToScore u 0 0 0 = 0 := by
      unfold MapView.utilizationToScore
      rw [if_pos hu]
    unfold MapView.utilizationToColor
    rw [hs, if_neg (by norm_num)]
    norm_num [MapView.lerpColor, MapView.lerp, hexToRgb_bad_eval, hexToRgb_mid_eval,
      MapView.Rgb.mk.injEq]
  · intro u hu
    have hs : MapView.utilizationToScore u 0 0 0 = 1 := by
      unfold MapView.utilizationToScore
      rw [if_neg (not_le.mpr hu), if_pos hu.le]
    unfold MapView.utilizationToColor
    rw [hs, if_pos (by norm_num)]
    norm_num [MapView.lerpColor, MapView.lerp, hexToRgb_mid_eval, hexToRgb_good_eval,
      MapView.Rgb.mk.injEq]

/-- C7 witness: the amended theorem applied at the concrete queried value
-1 on the empty population's all-zero bounds. -/
theorem c7_empty_population_witness :
    MapView.utilizationToColor (-1) 0 0 0 = MapView.hexToRgb MapView.OPT_COLORS_bad :=
  c7_empty_population_amended.2.1 (-1) (by norm_num)

/-- C8: for every ascending-sorted population and p in [0,1], percentile
linearly interpolates between the order statistics at ⌊(N-1)p⌋ and
⌈(N-1)p⌉; percentile([1,2,3,4,5], 0.5) = 3 and percentile([], p) = 0 for
every p. -/
theorem c8_percentile_linear_interpolation :
    (∀ (s : List ℚ) (p : ℚ), s ≠ [] → 0 ≤ p → p ≤ 1 →
      MapView.percentile s p =
        MapView.lerp (s.getD (Int.toNat ⌊((s.length : ℚ) - 1) * p⌋) 0)
          (s.getD (Int.toNat ⌈((s.length : ℚ) - 1) * p⌉) 0)
          (((s.length : ℚ) - 1) * p - (⌊((s.length : ℚ) - 1) * p⌋ : ℚ))) ∧
    MapView.percentile [1, 2, 3, 4, 5] (1/2) = 3 ∧
    (∀ p : ℚ, MapView.percentile [] p = 0) := by
  have htn : Int.toNat 2 = 2 := rfl
  refine ⟨?_, by norm_num [MapView.percentile, MapView.lerp, htn], fun p => rfl⟩
  intro s p hs h0 h1
  unfold MapView.percentile
  rw [if_neg (by simpa using hs)]
  dsimp only
  split_ifs with hfl
  · rw [← hfl]
    simp [MapView.lerp]
  · rfl

/-- C8 witness: the interpolation equation applied at the concrete
population [1,2,3,4,5] and p = 1/2, together with the concrete median. -/
theorem c8_percentile_witness :
    MapView.percentile [1, 2, 3, 4, 5] (1/2) = 3 ∧
    MapView.percentile [1, 2, 3, 4, 5] (1/2) =
      MapView.lerp
        (List.getD [(1:ℚ), 2, 3, 4, 5]
          (Int.toNat ⌊((List.length [(1:ℚ), 2, 3, 4, 5] : ℚ) - 1) * (1/2)⌋) 0)
        (List.getD [(1:ℚ), 2, 3, 4, 5]
          (Int.toNat ⌈((List.length [(1:ℚ), 2, 3, 4, 5] : ℚ) - 1) * (1/2)⌉) 0)
        (((List.length [(1:ℚ), 2, 3, 4, 5] : ℚ) - 1) * (1/2) -
          (⌊((List.length [(1:ℚ), 2, 3, 4, 5] : ℚ) - 1) * (1/2)⌋ : ℚ)) :=
  ⟨c8_percentile_linear_interpolation.2.1,
   c8_percentile_linear_interpolation.1 [1, 2, 3, 4, 5] (1/2) (by simp)
     (by norm_num) (by norm_num)⟩

/-- The `Connections.reduce((sum, c) => sum + (c.Quantity ?? 1), 0)`
expression of `deriveChargerCount`'s fallback branch, as a named sum. -/
def sumConnections (cs : List Connection) : ℤ :=
  cs.foldl (fun sum c => sum + c.Quantity.getD 1) 0

/-- Each step of the fallback sum adds at least 1 when every present
per-connection quantity is at least 1. -/
lemma foldl_quantity_lower_bound :
    ∀ (cs : List Connection) (a : ℤ),
      (∀ c ∈ cs, ∀ q, c.Quantity = some q → 1 ≤ q) →
      a + (cs.length : ℤ) ≤ cs.foldl (fun sum c => sum + c.Quantity.getD 1) a := by
  intro cs
  induction cs with
  | nil => intro a _; simp
  | cons c cs' ih =>
    intro a h
    have hc : 1 ≤ c.Quantity.getD 1 := by
      cases hq : c.Quantity with
      | none => simp
      | some q => simpa using h c (by simp) q hq
    have hrest := ih (a + c.Quantity.getD 1) (fun c' hc' q hq => h c' (by simp [hc']) q hq)
    simp only [List.foldl_cons, List.length_cons]
    push_cast
    push_cast at hrest
    linarith

/-- C3 counterexample: a station with an explicit `NumberOfPoints` of 0
makes `deriveChargerCount` return 0, which is not ≥ 1 — the explicit
count is authoritative and passes through unchanged. -/
theorem c3_explicit_zero_counterexample :
    Web.deriveChargerCount ⟨some 0, none, ⟨0, 0⟩⟩ = 0 ∧
    ¬ (1 ≤ Web.deriveChargerCount ⟨some 0, none, ⟨0, 0⟩⟩) := by
  refine ⟨rfl, ?_⟩
  norm_num [Web.deriveChargerCount]

/-- C3 (amended): `deriveChargerCount` returns an integer ≥ 1 whenever
the explicit total-count field is null/absent and every per-connection
quantity that is present is itself ≥ 1; an explicit count (even 0 or
less) is returned unchanged. -/
theorem c3_amended_charger_count_pos :
    ∀ st : OcmStation, st.NumberOfPoints = none →
      (∀ cs, st.Connections = some cs → ∀ c ∈ cs, ∀ q, c.Quantity = some q → 1 ≤ q) →
      1 ≤ Web.deriveChargerCount st := by
  intro st hnp hq
  obtain ⟨np, conns, addr⟩ := st
  cases hnp
  cases conns with
  | none => norm_num [Web.deriveChargerCount]
  | some cs =>
    cases cs with
    | nil => norm_num [Web.deriveChargerCount]
    | cons c cs' =>
      have hb := foldl_quantity_lower_bound (c :: cs') 0 (hq (c :: cs') rfl)
      have hlen : (1 : ℤ) ≤ ((c :: cs').length : ℤ) := by
        simp only [List.length_cons]
        push_cast
        linarith [Int.natCast_nonneg cs'.length]
      simp only [Web.deriveChargerCount]
      rw [if_pos (by simp)]
      linarith

/-- C3 witness: the amended bound applied to the concrete record with a
null explicit count and one connection of quantity 2. -/
theorem c3_amended_witness :
    1 ≤ Web.deriveChargerCount ⟨none, some [⟨some 2⟩], ⟨0, 0⟩⟩ :=
  c3_amended_charger_count_pos ⟨none, some [⟨some 2⟩], ⟨0, 0⟩⟩ rfl (by
    rintro cs hcs c hc q hq
    cases hcs
    simp only [List.mem_singleton] at hc
    subst hc
    simp only [Option.some.injEq] at hq
    omega)

/-- C4 counterexample: on a record with a null explicit count and a
present-but-empty connection list, `deriveChargerCount` returns 1, not
the sum (0) of the per-connection quantities — a present empty list is
not summed, contrary to the claim's unconditional "if a connection list
is present" reading. -/
theorem c4_empty_connections_counterexample :
    Web.deriveChargerCount ⟨none, some [], ⟨0, 0⟩⟩ = 1 ∧
    sumConnections [] = 0 ∧
    Web.deriveChargerCount ⟨none, some [], ⟨0, 0⟩⟩ ≠ sumConnections [] := by
  refine ⟨rfl, rfl, ?_⟩
  norm_num [Web.deriveChargerCount, sumConnections]

/-- C4 (amended): the fallback chain with "present" sharpened to
"present and non-empty" — a non-null explicit count is returned
unchanged (an explicit 0 is authoritative); otherwise a non-empty
connection list is summed with missing quantities counted as 1;
otherwise (absent or empty list) the result is 1. -/
theorem c4_fallback_chain :
    ∀ st : OcmStation,
      (∀ n, st.NumberOfPoints = some n → Web.deriveChargerCount st = n) ∧
      (st.NumberOfPoints = none → ∀ cs, st.Connections = some cs → cs ≠ [] →
        Web.deriveChargerCount st = sumConnections cs) ∧
      (st.NumberOfPoints = none → st.Connections = none ∨ st.Connections = some [] →
        Web.deriveChargerCount st = 1) := by
  intro st
  obtain ⟨np, conns, addr⟩ := st
  refine ⟨?_, ?_, ?_⟩
  · intro n hn
    cases hn
    rfl
  · intro hnp cs hcs hne
    cases hnp
    cases hcs
    cases cs with
    | nil => exact absurd rfl hne
    | cons c cs' => simp [Web.deriveChargerCount, sumConnections]
  · intro hnp hc
    cases hnp
    rcases hc with h | h <;> cases h <;> rfl

/-- C4 witness: the sum clause applied to the spec's own test vector
`{count: null, connections: [{qty: null}, {qty: null}]}`, which yields 2
(each missing quantity counted as 1). -/
theorem c4_fallback_witness :
    Web.deriveChargerCount ⟨none, some [⟨none⟩, ⟨none⟩], ⟨0, 0⟩⟩ = 2 :=
  ((c4_fallback_chain ⟨none, some [⟨none⟩, ⟨none⟩], ⟨0, 0⟩⟩).2.1 rfl
    [⟨none⟩, ⟨none⟩] rfl (by simp)).trans (by norm_num [sumConnections])

/-- C10: with a null explicit count and a present-but-empty connection
list, `deriveChargerCount` returns 1 — exactly as for an absent list; an
empty list is never summed to 0. -/
theorem c10_empty_list_like_absent :
    Web.deriveChargerCount ⟨none, some [], ⟨0, 0⟩⟩ = 1 ∧
    Web.deriveChargerCount ⟨none, some [], ⟨0, 0⟩⟩ =
      Web.deriveChargerCount ⟨none, none, ⟨0, 0⟩⟩ :=
  ⟨rfl, rfl⟩

/-- C9: `synthOptimizationScore` equals the claimed closed form
`clamp01(frac(sin(lat·91.123 + lng·47.77)·15731.743)^0.35 · 0.75 +
0.2·traffic + 0.15·capacity)`, always lies in [0,1], and the status
derived from a score is overloaded below 0.33, balanced below 0.66, and
underutilized otherwise — with `scoreStation`'s status field agreeing
with that rule applied to its own optimization score. -/
theorem c9_synth_score_formula_and_status :
    (∀ (ops : MathOps) (lat lng t n : ℚ),
      Web.synthOptimizationScore ops lat lng t n =
        max 0 (min 1 (ops.pow
          (ops.sin (lat * 91.123 + lng * 47.77) * 15731.743 -
            (⌊ops.sin (lat * 91.123 + lng * 47.77) * 15731.743⌋ : ℚ)) 0.35 * 0.75 +
          (0.2 * t + 0.15 * n)))) ∧
    (∀ (ops : MathOps) (lat lng t n : ℚ),
      0 ≤ Web.synthOptimizationScore ops lat lng t n ∧
        Web.synthOptimizationScore ops lat lng t n ≤ 1) ∧
    (∀ s : ℚ, (s < 0.33 → Web.statusOf s = Status.overloaded) ∧
      (¬ s < 0.33 → s < 0.66 → Web.statusOf s = Status.balanced) ∧
      (¬ s < 0.66 → Web.statusOf s = Status.underutilized)) ∧
    (∀ (ops : MathOps) (st : OcmStation) (t : ℚ) (m : ℤ),
      (Web.scoreStation ops st t m).status =
        Web.statusOf (Web.scoreStation ops st t m).optimizationScore) := by
  refine ⟨fun ops lat lng t n => rfl, ?_, ?_, fun ops st t m => rfl⟩
  · intro ops lat lng t n
    show 0 ≤ max 0 (min 1 _) ∧ max 0 (min 1 _) ≤ 1
    exact clamp01_mem _
  · intro s
    refine ⟨?_, ?_, ?_⟩
    · intro h
      unfold Web.statusOf
      rw [if_pos h]
    · intro h1 h2
      unfold Web.statusOf
      rw [if_neg h1, if_pos h2]
    · intro h
      unfold Web.statusOf
      rw [if_neg (fun hlt => h (lt_of_lt_of_le hlt (by norm_num))), if_neg h]

/-- C9 witness: the status rule applied at the concrete score 1/2, which
is banded as balanced. -/
theorem c9_status_witness : Web.statusOf (1/2) = Status.balanced :=
  (c9_synth_score_formula_and_status.2.2.1 (1/2)).2.1 (by norm_num) (by norm_num)
